import Mathlib

/-!
Verification model of the GuessWithEmoji bot's core game logic.

The definitions below are shallow embeddings of the Python sources:
  * `src/utils/helpers.py`   — `normalize_text`, `calculate_similarity`,
    `is_close_match`
  * `src/bot/game_logic.py`  — `GameManager` (session lifecycle, guessing,
    scoring, hints, ending games) and `GameManager._calculate_similarity`
  * `src/database/models.py` — `GameStatus`, `DifficultyLevel`, `User`,
    `MoviePuzzle`, `GameSession`
  * `src/database/db.py`     — `DatabaseManager` write operations
  * `src/config/config.py`   — `Config` defaults (GAME_TIMEOUT=60,
    MAX_HINTS=3, POINTS_CORRECT=10)

Modelling conventions:
  * Python floats are modelled as exact rationals (`ℚ`).  Every numeric
    constant in the modelled code (0.5, 0.8, 1.0, 1.5, 2.0, 30) is exactly
    representable as an IEEE double, and the similarity scores are ratios of
    tiny integers, so rational arithmetic agrees with the float arithmetic of
    the source on everything stated here.
  * Python strings are modelled as `String` / `List Char`.  The
    `unicodedata.normalize('NFKD', ·)` step of `normalize_text` is the
    identity on the ASCII strings handled in this development and is modelled
    as such.
  * `async` methods are modelled as pure state transformers: each method
    takes the current state plus its inputs and returns (result, new state).
    The success of each MongoDB session write is an explicit `Bool` argument,
    mirroring the `bool` that `create_game_session` / `update_game_session`
    return (`False` when the driver raised and the exception was swallowed).
  * `datetime` values are modelled as rational timestamps in seconds.
-/

/-! ### Text normalisation (`src/utils/helpers.py`, `normalize_text`) -/

/-- Python `\s` / `str.strip()` whitespace test. -/
def isWs (c : Char) : Bool := c.isWhitespace

/-- `text.strip()`: drop leading and trailing whitespace. -/
def pyStrip (l : List Char) : List Char :=
  ((l.dropWhile isWs).reverse.dropWhile isWs).reverse

/-- `re.sub(r'\s+', ' ', text)`: replace every run of whitespace by a single
space. -/
def collapseWs : List Char → List Char
  | [] => []
  | [c] => if isWs c then [' '] else [c]
  | c₁ :: c₂ :: rest =>
    if isWs c₁ && isWs c₂ then collapseWs (c₂ :: rest)
    else (if isWs c₁ then ' ' else c₁) :: collapseWs (c₂ :: rest)

/-- The character class removed by
`re.sub(r"[.,!?;:\"\'\-\(\)\[\]{}]", "", text)`. -/
def punctChars : List Char :=
  ['.', ',', '!', '?', ';', ':', Char.ofNat 34, Char.ofNat 39, '-',
   '(', ')', '[', ']', Char.ofNat 123, Char.ofNat 125]

/-- Remove the punctuation characters matched by the regex above. -/
def removePunct (l : List Char) : List Char :=
  l.filter (fun c => !(punctChars.contains c))

/-- Python regex `\w` (ASCII fragment): letters, digits, underscore. -/
def isWordChar (c : Char) : Bool := c.isAlphanum || c = '_'

/-- Right word-boundary test used when matching `\b(the|a|an)\b`. -/
def rightBoundary : List Char → Bool
  | [] => true
  | c :: _ => !(isWordChar c)

/-- At a position whose left side is a word boundary, try to match
`(the|a|an)\b\s*` and return the rest of the input after the match. -/
def dropArticleAt (l : List Char) : Option (List Char) :=
  if l.take 3 = ['t', 'h', 'e'] && rightBoundary (l.drop 3) then
    some ((l.drop 3).dropWhile isWs)
  else if l.take 2 = ['a', 'n'] && rightBoundary (l.drop 2) then
    some ((l.drop 2).dropWhile isWs)
  else if l.take 1 = ['a'] && rightBoundary (l.drop 1) then
    some ((l.drop 1).dropWhile isWs)
  else none

/-- Left-to-right scan of `re.sub(r'\b(the|a|an)\b\s*', '', text)`.
`prevW` records whether the previous character is a word character (so that
the left `\b` can be tested); the fuel argument only bounds the recursion and
never runs out when it starts at the input length, since every step consumes
at least one character. -/
def stripArticlesAux : ℕ → Bool → List Char → List Char
  | 0, _, l => l
  | _ + 1, _, [] => []
  | fuel + 1, prevW, c :: rest =>
    if prevW then c :: stripArticlesAux fuel (isWordChar c) rest
    else
      match dropArticleAt (c :: rest) with
      | some rem => stripArticlesAux fuel false rem
      | none => c :: stripArticlesAux fuel (isWordChar c) rest

/-- `re.sub(r'\b(the|a|an)\b\s*', '', text)`. -/
def stripArticles (l : List Char) : List Char :=
  stripArticlesAux l.length false l

/-- `normalize_text` (`src/utils/helpers.py` lines 89-107): lowercase,
collapse whitespace, Unicode-normalise (identity on the ASCII fragment
modelled here), strip punctuation, strip English articles, strip. -/
def normalize_text (text : String) : String :=
  if text = "" then ""
  else
    let t := text.data.map Char.toLower
    let t := collapseWs (pyStrip t)
    let t := removePunct t
    let t := stripArticles t
    String.mk (pyStrip t)

/-! ### Tokenisation and substring test -/

/-- `str.split()` with no argument: split on whitespace runs, dropping empty
tokens.  Words are kept as character lists. -/
def pySplitAux : List Char → List Char → List (List Char)
  | [], acc => if acc = [] then [] else [acc.reverse]
  | c :: rest, acc =>
    if isWs c then
      if acc = [] then pySplitAux rest []
      else acc.reverse :: pySplitAux rest []
    else pySplitAux rest (c :: acc)

/-- `text.split()` as a list of words. -/
def pySplit (s : String) : List (List Char) := pySplitAux s.data []

/-- `set(text.split())`. -/
def wordSet (s : String) : Finset (List Char) := (pySplit s).toFinset

/-- Python substring containment `s in t`. -/
def pyIn (s t : String) : Bool :=
  t.data.tails.any (fun suffix => s.data.isPrefixOf suffix)

/-! ### Similarity (`src/utils/helpers.py` and `GameManager`) -/

/-- `calculate_similarity` (`src/utils/helpers.py` lines 109-130).  This is
the function `is_close_match` — and hence the win decision — uses.  Note that
it has **no** substring branch: unequal normalized strings always fall
through to Jaccard word overlap.  `Rat.divInt` is exact rational division,
modelling Python's `/`; the Jaccard ratios and thresholds occurring here are
all exactly representable floats, so the comparisons agree with the source. -/
def calculate_similarity (text1 text2 : String) : ℚ :=
  let t1 := normalize_text text1
  let t2 := normalize_text text2
  if t1 = "" ∨ t2 = "" then 0
  else if t1 = t2 then 1
  else
    let words1 := wordSet t1
    let words2 := wordSet t2
    if words1 = ∅ ∨ words2 = ∅ then 0
    else Rat.divInt ((words1 ∩ words2).card : ℤ) (((words1 ∪ words2).card : ℤ))

/-- `is_close_match` (`src/utils/helpers.py` lines 132-134):
`calculate_similarity(guess, answer) >= threshold`.  `process_guess` calls it
with threshold 0.8 to decide wins. -/
def is_close_match (guess answer : String) (threshold : ℚ) : Bool :=
  calculate_similarity guess answer ≥ threshold

/-- `GameManager._calculate_similarity` (`src/bot/game_logic.py` lines
314-337).  Unlike the helper above it returns the fixed constant 0.8 when one
normalized string is a substring of the other.  `process_guess` consults it
only after `is_close_match` has already ruled the guess a non-win, to choose
between the "getting warmer" and "miss" replies. -/
def gm_calculate_similarity (guess answer : String) : ℚ :=
  let guess_norm := normalize_text guess
  let answer_norm := normalize_text answer
  if guess_norm = answer_norm then 1
  else if pyIn guess_norm answer_norm || pyIn answer_norm guess_norm then Rat.divInt 4 5
  else
    let guess_words := wordSet guess_norm
    let answer_words := wordSet answer_norm
    if guess_words = ∅ ∨ answer_words = ∅ then 0
    else
      let overlap := (guess_words ∩ answer_words).card
      let total := (guess_words ∪ answer_words).card
      if 0 < total then Rat.divInt (overlap : ℤ) (total : ℤ) else 0

/-! ### Scoring (`GameManager._handle_correct_guess` lines 152-167) -/

/-- Python `int()` applied to a float/rational: truncation toward zero. -/
def pyInt (q : ℚ) : ℤ := if q < 0 then -⌊-q⌋ else ⌊q⌋

/-- Difficulty levels (`src/database/models.py` lines 18-22). -/
inductive DifficultyLevel
  | easy
  | medium
  | hard
deriving DecidableEq, Repr

/-- The `difficulty_multiplier` dict in `_handle_correct_guess`. -/
def difficulty_multiplier : DifficultyLevel → ℚ
  | .easy => 1
  | .medium => 3 / 2
  | .hard => 2

/-- The points computation of `_handle_correct_guess` lines 159-167:
`points = int(base_points * difficulty_multiplier[...])`, then — if the round
was solved in under 30 seconds — `points = int(points * 1.5)`.  Note the two
separate `int()` truncations. -/
def winPoints (base : ℕ) (d : DifficultyLevel) (duration : ℚ) : ℤ :=
  let points := pyInt ((base : ℚ) * difficulty_multiplier d)
  if duration < 30 then pyInt ((points : ℚ) * (3 / 2)) else points

/-! ### Data model (`src/database/models.py`) -/

/-- `GameStatus` (`src/database/models.py` lines 11-16).  These are the only
statuses the code defines; there is no WON / TIMED_OUT / MANUALLY_ENDED. -/
inductive GameStatus
  | waiting
  | active
  | completed
  | timeout
deriving DecidableEq, Repr

/-- `User` (`src/database/models.py` lines 24-40), restricted to the
cumulative statistics the game logic reads or writes. -/
structure User where
  score : ℤ := 0
  games_played : ℤ := 0
  games_won : ℤ := 0
  correct_guesses : ℤ := 0
  hints_used : ℤ := 0
deriving DecidableEq, Repr

/-- `MoviePuzzle` (`src/database/models.py`), restricted to the fields the
game logic uses. -/
structure MoviePuzzle where
  id : String
  answer : String
  difficulty : DifficultyLevel
  hints : List String := []
  times_used : ℤ := 0
  times_solved : ℤ := 0
deriving DecidableEq, Repr

/-- `GameSession` (`src/database/models.py`), restricted to the fields the
game logic uses.  Timestamps are rational seconds. -/
structure GameSession where
  id : String
  chat_id : ℤ
  puzzle_id : String
  answer : String
  difficulty : DifficultyLevel
  status : GameStatus
  start_time : ℚ
  end_time : Option ℚ := none
  winner_id : Option ℤ := none
  hints_given : ℕ := 0
  participants : List ℤ := []
deriving DecidableEq

/-! ### Persistence (`src/database/db.py`)

Each collection is a partial map.  The session-write methods
`create_game_session` / `update_game_session` catch every driver exception
and return `False`; their callers in `GameManager` ignore that return value,
which we model by threading an explicit success `Bool` into each operation
and leaving the database untouched when it is `false`. -/

/-- The MongoDB collections the game logic touches. -/
structure Database where
  users : ℤ → Option User
  sessions : String → Option GameSession
  sessionGuesses : String → List (ℤ × String)
  puzzles : String → Option MoviePuzzle

/-- A `$inc` document for `update_user_stats`; absent keys are 0. -/
structure StatsInc where
  score : ℤ := 0
  games_played : ℤ := 0
  games_won : ℤ := 0
  correct_guesses : ℤ := 0
  hints_used : ℤ := 0
deriving DecidableEq, Repr

/-- Apply a `$inc` document to a user document. -/
def applyInc (u : User) (d : StatsInc) : User :=
  { score := u.score + d.score
    games_played := u.games_played + d.games_played
    games_won := u.games_won + d.games_won
    correct_guesses := u.correct_guesses + d.correct_guesses
    hints_used := u.hints_used + d.hints_used }

/-- `DatabaseManager.update_user_stats` (`src/database/db.py` lines 154-165):
`update_one({"_id": user_id}, {"$inc": stats_update})` without upsert — a
no-op when the user document does not exist.  Driver errors are swallowed. -/
def db_update_user_stats (db : Database) (uid : ℤ) (d : StatsInc) : Database :=
  { db with users := fun k => if k = uid then (db.users k).map (applyInc · d) else db.users k }

/-- `DatabaseManager.create_game_session` (lines 234-241): `insert_one` of
the session document; returns `False` (leaving the store unchanged) when the
driver raised. -/
def db_create_game_session (db : Database) (s : GameSession) (ok : Bool) : Database :=
  if ok then
    { db with sessions := fun k => if k = s.id then some s else db.sessions k }
  else db

/-- `DatabaseManager.update_game_session` (lines 255-265): `$set` of the
given fields on the stored document (a no-op on a missing id); returns
`False` (store unchanged) when the driver raised.  The `$set` document is
modelled as the field patch each call site passes. -/
def db_update_game_session (db : Database) (sid : String)
    (patch : GameSession → GameSession) (ok : Bool) : Database :=
  if ok then
    { db with sessions := fun k => if k = sid then (db.sessions k).map patch else db.sessions k }
  else db

/-- `DatabaseManager.add_game_guess` (lines 267-282): `$push` the guess onto
the stored session document. -/
def db_add_game_guess (db : Database) (sid : String) (uid : ℤ) (guess : String)
    (ok : Bool) : Database :=
  if ok then
    { db with sessionGuesses := fun k =>
        if k = sid then db.sessionGuesses k ++ [(uid, guess)] else db.sessionGuesses k }
  else db

/-- `DatabaseManager.mark_puzzle_solved` (lines 223-231): `$inc` the puzzle's
`times_solved`. -/
def db_mark_puzzle_solved (db : Database) (pid : String) : Database :=
  { db with puzzles := fun k =>
      if k = pid then (db.puzzles k).map (fun p => { p with times_solved := p.times_solved + 1 })
      else db.puzzles k }

/-! ### `GameManager` state (`src/bot/game_logic.py` lines 27-35) -/

/-- The in-memory state of a `GameManager` plus its `DatabaseManager`.
`active_games` is the chat_id → session dict (the active-round index),
`recent_puzzles` the per-chat recent puzzle ids, `game_timers` whether a
timeout task currently exists for the chat. -/
structure BotState where
  db : Database
  active_games : ℤ → Option GameSession
  recent_puzzles : ℤ → List String
  game_timers : ℤ → Bool

/-- `Config` game settings (`src/config/config.py` lines 25-28) with their
documented defaults. -/
structure Config where
  game_timeout : ℚ := 60
  max_hints : ℕ := 3
  points_correct : ℕ := 10

/-- `GameManager.is_game_active` (lines 281-283):
`chat_id in self.active_games and self.active_games[chat_id].status == ACTIVE`. -/
def is_game_active (st : BotState) (chat : ℤ) : Bool :=
  match st.active_games chat with
  | some session => session.status = GameStatus.active
  | none => false

/-! ### `GameManager` operations (`src/bot/game_logic.py`)

Each `async` method becomes a pure function from the old state (plus the
explicit inputs the Python method obtains from the update object, the random
puzzle selector, `uuid`, and the clock) to a result and the new state. -/

/-- Result of `start_new_game`: the three `return` shapes of the method. -/
inductive StartResult
  | alreadyActive
  | noPuzzle
  | started (session : GameSession)
deriving DecidableEq

/-- `GameManager.start_new_game` (lines 38-103).  `puzzle?` is the value
returned by `db.get_random_puzzle` (selection itself is I/O and abstracted as
an input), `sessionId` the fresh `uuid`, `now` the clock reading and
`createOk` whether `db.create_game_session`'s `insert_one` succeeded — the
method ignores that boolean, stores the session in `active_games`, appends to
`recent_puzzles` and arms the timer regardless. -/
def start_new_game (st : BotState) (chat : ℤ) (puzzle? : Option MoviePuzzle)
    (sessionId : String) (now : ℚ) (createOk : Bool) : StartResult × BotState :=
  if is_game_active st chat then (.alreadyActive, st)
  else
    match puzzle? with
    | none => (.noPuzzle, st)
    | some puzzle =>
      let session : GameSession :=
        { id := sessionId
          chat_id := chat
          puzzle_id := puzzle.id
          answer := puzzle.answer
          difficulty := puzzle.difficulty
          status := .active
          start_time := now }
      let db₁ := db_create_game_session st.db session createOk
      let st₁ : BotState :=
        { st with
          db := db₁
          active_games := fun c => if c = chat then some session else st.active_games c
          recent_puzzles := fun c =>
            if c = chat then st.recent_puzzles chat ++ [puzzle.id] else st.recent_puzzles c
          game_timers := fun c => if c = chat then true else st.game_timers c }
      (.started session, st₁)

/-- Result of `process_guess`: no active game, a win (with the awarded
points), the "getting warmer" reply, or a "not quite right" reply (the
concrete miss message is chosen by `random.choice` and carries no state). -/
inductive GuessResult
  | noActive
  | win (points : ℤ)
  | close
  | miss
deriving DecidableEq

/-- `GameManager._handle_correct_guess` (lines 146-206), called by
`process_guess` once `is_close_match` accepted the guess.  In order: the
session object — the very object held in `active_games` — is mutated to
COMPLETED with end time and winner; points are computed (two separate `int()`
truncations, see `winPoints`); `update_game_session` persists the terminal
fields (its success `updateOk` is ignored); the winner's stats are
incremented; the puzzle's solve count is incremented; the chat is deleted
from `active_games` and its timer cancelled. -/
def handle_correct_guess (cfg : Config) (st : BotState) (chat : ℤ)
    (session : GameSession) (userId : ℤ) (now : ℚ) (updateOk : Bool) :
    GuessResult × BotState :=
  let session₁ : GameSession :=
    { session with status := .completed, end_time := some now, winner_id := some userId }
  let st₁ : BotState :=
    { st with active_games := fun c => if c = chat then some session₁ else st.active_games c }
  let duration := now - session.start_time
  let points := winPoints cfg.points_correct session.difficulty duration
  let db₁ := db_update_game_session st₁.db session.id
    (fun r => { r with status := .completed, end_time := some now, winner_id := some userId })
    updateOk
  let db₂ := db_update_user_stats db₁ userId
    { score := points, games_won := 1, games_played := 1, correct_guesses := 1 }
  let db₃ := db_mark_puzzle_solved db₂ session.puzzle_id
  let st₂ : BotState :=
    { st₁ with
      db := db₃
      active_games := fun c => if c = chat then none else st₁.active_games c
      game_timers := fun c => if c = chat then false else st₁.game_timers c }
  (.win points, st₂)

/-- `GameManager.process_guess` (lines 105-144).  Looks up the chat's session
(answering `noActive` unless one exists with status ACTIVE), appends the user
to the session's `participants` list if new (mutating the object shared with
`active_games`), records the guess via `add_game_guess`, then either hands a
winning guess to `_handle_correct_guess` or classifies it as "getting warmer"
(`_calculate_similarity > 0.5`) or a miss. -/
def process_guess (cfg : Config) (st : BotState) (chat userId : ℤ)
    (guess : String) (now : ℚ) (addGuessOk updateOk : Bool) :
    GuessResult × BotState :=
  match st.active_games chat with
  | none => (.noActive, st)
  | some session =>
    if session.status ≠ GameStatus.active then (.noActive, st)
    else
      let session₁ :=
        if userId ∈ session.participants then session
        else { session with participants := session.participants ++ [userId] }
      let stP : BotState :=
        { st with active_games := fun c => if c = chat then some session₁ else st.active_games c }
      let stG : BotState :=
        { stP with db := db_add_game_guess stP.db session₁.id userId guess addGuessOk }
      if is_close_match guess session₁.answer (Rat.divInt 4 5) then
        handle_correct_guess cfg stG chat session₁ userId now updateOk
      else if gm_calculate_similarity guess session₁.answer > Rat.divInt 1 2 then (.close, stG)
      else (.miss, stG)

/-- Result of `get_hint`: the only replies the method can actually produce.
`attributeErrorCaught` is the generic "❌ Error getting hint." reply the
blanket `except` (line 236) gives when the body raises. -/
inductive HintResult
  | noActive
  | attributeErrorCaught
deriving DecidableEq

/-- `GameManager.get_hint` (lines 208-238), modelling what actually
executes.  After the no-active-game guard, line 216 runs
`puzzle = await self.db.get_puzzle_by_id(session.puzzle_id)` — but
`DatabaseManager` (src/database/db.py) defines no `get_puzzle_by_id`
method, so the attribute access raises `AttributeError` on every call and
the blanket `except` turns it into the generic error reply.  The
no-hints check, the hint-limit check, the `puzzle.hints[...]` indexing and
the `hints_given` increment of lines 219-234 are unreachable dead code:
no hint is ever dispensed and the state is never changed.  The unused
`cfg`/`updateOk` arguments keep the signature of the dead
`Config.MAX_HINTS` / `update_game_session` uses. -/
def get_hint (_cfg : Config) (st : BotState) (chat : ℤ) (_updateOk : Bool) :
    HintResult × BotState :=
  match st.active_games chat with
  | none => (.noActive, st)
  | some session =>
    if session.status ≠ GameStatus.active then (.noActive, st)
    else (.attributeErrorCaught, st)

/-- Result of `end_game`. -/
inductive EndResult
  | noActive
  | ended (session : GameSession)
deriving DecidableEq

/-- `GameManager.end_game` (lines 240-279).  Requires only that the chat has
an entry in `active_games` (no status check).  Sets the status to TIMEOUT
when `reason == "timeout"` and to COMPLETED otherwise, stamps the end time
(mutating the shared session object), persists the two fields (`updateOk`
ignored), increments `games_played` for every participant, removes the chat
from `active_games` and cancels its timer. -/
def end_game (st : BotState) (chat : ℤ) (reason : String) (now : ℚ)
    (updateOk : Bool) : EndResult × BotState :=
  match st.active_games chat with
  | none => (.noActive, st)
  | some session =>
    let session₁ : GameSession :=
      { session with
        status := if reason = "timeout" then .timeout else .completed
        end_time := some now }
    let st₁ : BotState :=
      { st with active_games := fun c => if c = chat then some session₁ else st.active_games c }
    let db₁ := db_update_game_session st₁.db session.id
      (fun r => { r with status := session₁.status, end_time := some now }) updateOk
    let db₂ := session₁.participants.foldl
      (fun db uid => db_update_user_stats db uid { games_played := 1 }) db₁
    let st₂ : BotState :=
      { st₁ with
        db := db₂
        active_games := fun c => if c = chat then none else st₁.active_games c
        game_timers := fun c => if c = chat then false else st₁.game_timers c }
    (.ended session₁, st₂)

/-! ### Concrete fixtures used by the evaluation theorems below -/

/-- Bridging lemma: `Rat.divInt 4 5` is the rational 4/5. -/
lemma divInt_four_five : Rat.divInt 4 5 = (4 / 5 : ℚ) := by
  norm_num [Rat.divInt_eq_div]

/-- Bridging lemma: `Rat.divInt 1 2` is the rational 1/2. -/
lemma divInt_one_two : Rat.divInt 1 2 = (1 / 2 : ℚ) := by
  norm_num [Rat.divInt_eq_div]

/-- A hard puzzle with three hints. -/
def testPuzzle : MoviePuzzle :=
  { id := "p1", answer := "casablanca", difficulty := .hard, hints := ["h1", "h2", "h3"] }

/-- A fresh ACTIVE round on `testPuzzle` in chat 100, started at time 0. -/
def testSession : GameSession :=
  { id := "s1", chat_id := 100, puzzle_id := "p1", answer := "casablanca",
    difficulty := .hard, status := .active, start_time := 0 }

/-- A state in which chat 100 is playing `testSession` and users 1 and 2
exist with all-zero statistics. -/
def testState : BotState :=
  { db :=
      { users := fun k => if k = 1 ∨ k = 2 then some {} else none
        sessions := fun k => if k = "s1" then some testSession else none
        sessionGuesses := fun _ => []
        puzzles := fun k => if k = "p1" then some testPuzzle else none }
    active_games := fun c => if c = 100 then some testSession else none
    recent_puzzles := fun _ => []
    game_timers := fun c => c = 100 }

/-- User 1 guesses wrongly at t=5 (all persistence succeeding). -/
def step1 := process_guess {} testState 100 1 "wrong thing" 5 true true

/-- Then user 2 guesses the exact answer at t=10 (all persistence
succeeding). -/
def step2 := process_guess {} step1.2 100 2 "casablanca" 10 true true

/-- The same winning guess, but with the session-update write failing. -/
def step2bad := process_guess {} step1.2 100 2 "casablanca" 10 true false

/-- A state with no games, no users, no puzzles. -/
def freshState : BotState :=
  { db := { users := fun _ => none, sessions := fun _ => none,
            sessionGuesses := fun _ => [], puzzles := fun _ => none }
    active_games := fun _ => none
    recent_puzzles := fun _ => []
    game_timers := fun _ => false }

/-- Starting a game in chat 7 of `freshState` while the durable
`create_game_session` write fails. -/
def startBad := start_new_game freshState 7 (some testPuzzle) "sX" 0 false

/-- An easy puzzle with only two hints — fewer than the configured maximum
of three. -/
def shortPuzzle : MoviePuzzle :=
  { id := "p2", answer := "up", difficulty := .easy, hints := ["x", "y"] }

/-- An ACTIVE round on `shortPuzzle` that has already revealed both hints. -/
def shortSession : GameSession :=
  { id := "s2", chat_id := 200, puzzle_id := "p2", answer := "up",
    difficulty := .easy, status := .active, start_time := 0, hints_given := 2 }

/-- A state in which chat 200 is playing `shortSession`. -/
def shortState : BotState :=
  { db := { users := fun _ => none
            sessions := fun k => if k = "s2" then some shortSession else none
            sessionGuesses := fun _ => []
            puzzles := fun k => if k = "p2" then some shortPuzzle else none }
    active_games := fun c => if c = 200 then some shortSession else none
    recent_puzzles := fun _ => []
    game_timers := fun c => c = 200 }

/-! ### C2 — win scoring -/

/-- C2, counterexample.  The claim says the awarded points are
`int(base_points × difficulty_multiplier × speed_multiplier)` with a single
truncation after all multiplications.  The code truncates twice — once after
the difficulty multiplication and once after the speed multiplication — and
the two disagree: with base points 5 (POINTS_CORRECT is environment
configurable), difficulty medium and a 10-second solve, the code awards
`int(int(5·1.5)·1.5) = int(7·1.5) = 10`, while the claimed single-truncation
formula gives `int(5·1.5·1.5) = int(11.25) = 11`. -/
theorem C2_counterexample :
    winPoints 5 DifficultyLevel.medium 10 = 10 ∧
    pyInt ((5 : ℚ) * difficulty_multiplier DifficultyLevel.medium * (3 / 2)) = 11 ∧
    winPoints 5 DifficultyLevel.medium 10
      ≠ pyInt ((5 : ℚ) * difficulty_multiplier DifficultyLevel.medium * (3 / 2)) := by
  refine ⟨?_, ?_, ?_⟩ <;>
    norm_num [winPoints, pyInt, difficulty_multiplier]

/-- C2, amended: the code computes `int(base·difficulty_multiplier)` and, on
a sub-30-second solve, truncates again: `int(points·1.5)`.  With the default
base of 10 points this double truncation coincides with the claimed single
final truncation for every difficulty and elapsed time, and the two worked
examples hold: hard in 10 s gives 30 points, easy in 45 s gives 10. -/
theorem C2_amended_theorem (d : DifficultyLevel) (elapsed : ℚ) :
    winPoints 10 d elapsed
      = pyInt ((10 : ℚ) * difficulty_multiplier d * (if elapsed < 30 then 3 / 2 else 1)) ∧
    winPoints 10 DifficultyLevel.hard 10 = 30 ∧
    winPoints 10 DifficultyLevel.easy 45 = 10 := by
  refine ⟨?_, by norm_num [winPoints, pyInt, difficulty_multiplier],
    by norm_num [winPoints, pyInt, difficulty_multiplier]⟩
  rcases lt_or_le elapsed 30 with h | h
  · cases d <;>
      simp only [winPoints, pyInt, difficulty_multiplier, if_pos h] <;> norm_num
  · cases d <;>
      simp only [winPoints, pyInt, difficulty_multiplier, if_neg (not_lt.mpr h)] <;> norm_num

/-! ### C3 — games_played accounting -/

/-- C3, evaluation of the code at the failing input.  User 1 participates in
the round (a recorded wrong guess), user 2 then wins it.  The round is over
(removed from the active index) yet user 1's `games_played` is still 0 —
only the winner's was incremented.  `end_game`'s participant loop, the only
place non-winners are credited, never runs on the win path. -/
theorem C3_code_eval :
    step1.1 = GuessResult.miss ∧
    (step1.2.active_games 100).map GameSession.participants = some [1] ∧
    (∃ p, step2.1 = GuessResult.win p) ∧
    step2.2.db.sessionGuesses "s1" = [(1, "wrong thing"), (2, "casablanca")] ∧
    step2.2.active_games 100 = none ∧
    (step2.2.db.users 1).map User.games_played = some 0 ∧
    (step2.2.db.users 2).map User.games_played = some 1 := by
  exact ⟨by decide, by decide, ⟨_, rfl⟩, by decide, by decide, by decide, by decide⟩

/-! ### C4 — persist-first ordering -/

/-- C4, evaluation of the code at the failing inputs.  (a) `start_new_game`
ignores the `False` returned by a failed `create_game_session`: the round is
registered as ACTIVE in the in-memory index although no durable record
exists.  (b) A winning guess whose `update_game_session` write fails is
still declared a win, the chat is removed from the active index, and the
durable record still says ACTIVE — the in-memory index changed and the
operation "succeeded" although the persistence write did not confirm. -/
theorem C4_code_eval :
    (∃ s, startBad.1 = StartResult.started s) ∧
    is_game_active startBad.2 7 = true ∧
    startBad.2.db.sessions "sX" = none ∧
    (∃ p, step2bad.1 = GuessResult.win p) ∧
    step2bad.2.active_games 100 = none ∧
    (step2bad.2.db.sessions "s1").map GameSession.status = some GameStatus.active := by
  exact ⟨⟨_, rfl⟩, by decide, by decide, ⟨_, rfl⟩, by decide, by decide⟩

/-! ### C7 — hint requests with fewer hints than the maximum -/

/-- C7, evaluation of the code at the failing input.  `shortPuzzle` has 2
hints, fewer than the configured maximum of 3, and both are already
revealed.  The call does fail without crashing the process — but not with a
NoMoreHints result (no such result exists anywhere in the code), and not at
the claimed out-of-range `puzzle.hints[2]`: execution never gets there,
because line 216 first calls the nonexistent `db.get_puzzle_by_id`, whose
`AttributeError` the blanket handler turns into the generic
"❌ Error getting hint." reply, state unchanged. -/
theorem C7_code_eval :
    shortPuzzle.hints.length = 2 ∧
    shortSession.hints_given = 2 ∧
    (2 : ℕ) < ({} : Config).max_hints ∧
    (get_hint {} shortState 200 true).1 = HintResult.attributeErrorCaught ∧
    (get_hint {} shortState 200 true).2 = shortState := by
  exact ⟨by decide, by decide, by decide, by decide, rfl⟩

/-! ### C6 — hint sequence -/

/-- C6, evaluation of the code at the failing input.  The claimed sequence
— three successful hint requests, then HintLimitReached — never happens: on
an active round with a 3-hint puzzle, the maximum at its default 3 and
nothing revealed, the very first `get_hint` call already fails with the
generic error reply (the `AttributeError` from the nonexistent
`db.get_puzzle_by_id`), dispensing no hint and leaving the state — in
particular the revealed count — unchanged, and every subsequent call fails
identically, so the hint-limit reply is unreachable. -/
theorem C6_code_eval :
    testPuzzle.hints.length = 3 ∧
    ({} : Config).max_hints = 3 ∧
    testSession.hints_given = 0 ∧
    (get_hint {} testState 100 true).1 = HintResult.attributeErrorCaught ∧
    (get_hint {} testState 100 true).2 = testState ∧
    (get_hint {} (get_hint {} testState 100 true).2 100 true).1
      = HintResult.attributeErrorCaught := by
  exact ⟨by decide, by decide, by decide, by decide, rfl, by decide⟩

/-! ### C1 — substring similarity and the win decision -/

/-- An ACTIVE round in chat 300 whose answer is "matrix reloaded". -/
def sessionC1 : GameSession :=
  { id := "s3", chat_id := 300, puzzle_id := "p3", answer := "matrix reloaded",
    difficulty := .medium, status := .active, start_time := 0 }

/-- A state in which chat 300 is playing `sessionC1`. -/
def stateC1 : BotState :=
  { db := { users := fun k => if k = 5 then some {} else none
            sessions := fun k => if k = "s3" then some sessionC1 else none
            sessionGuesses := fun _ => []
            puzzles := fun _ => none }
    active_games := fun c => if c = 300 then some sessionC1 else none
    recent_puzzles := fun _ => []
    game_timers := fun c => c = 300 }

/-- C1, counterexample.  Guess "matrix" against answer "matrix reloaded":
the normalized strings are non-empty, distinct, and one is a substring of
the other.  The similarity function that decides wins —
`calculate_similarity`, via `is_close_match` in `process_guess` — returns
1/2, not 0.8, because it has no substring branch; the guess does not meet
the win threshold and the round continues with a "getting warmer" reply
(that reply comes from `_calculate_similarity`, which does return 0.8 but is
never consulted for the win decision). -/
theorem C1_counterexample :
    normalize_text "matrix" ≠ "" ∧
    normalize_text "matrix reloaded" ≠ "" ∧
    normalize_text "matrix" ≠ normalize_text "matrix reloaded" ∧
    pyIn (normalize_text "matrix") (normalize_text "matrix reloaded") = true ∧
    calculate_similarity "matrix" "matrix reloaded" = 1 / 2 ∧
    calculate_similarity "matrix" "matrix reloaded" ≠ 4 / 5 ∧
    is_close_match "matrix" "matrix reloaded" (Rat.divInt 4 5) = false ∧
    (process_guess {} stateC1 300 5 "matrix" 5 true true).1 = GuessResult.close := by
  have hval : calculate_similarity "matrix" "matrix reloaded" = Rat.divInt 1 2 := by decide
  refine ⟨by decide, by decide, by decide, by decide, ?_, ?_, by decide, by decide⟩
  · rw [hval, divInt_one_two]
  · rw [hval, divInt_one_two]; norm_num

/-- C1, amended: for every pair of guess/answer strings whose normalized
forms are non-empty, not equal, and one of which is a substring of the
other, `GameManager._calculate_similarity` returns exactly 0.8 — but that
function only picks the close/miss reply for guesses already ruled
non-winning; the win decision is `is_close_match`/`calculate_similarity`,
which has no substring rule, so such a guess need not meet the win
threshold (witness "matrix" vs "matrix reloaded", similarity 1/2). -/
theorem C1_amended_theorem (g a : String)
    (_h₁ : normalize_text g ≠ "") (_h₂ : normalize_text a ≠ "")
    (h₃ : normalize_text g ≠ normalize_text a)
    (h₄ : (pyIn (normalize_text g) (normalize_text a)
            || pyIn (normalize_text a) (normalize_text g)) = true) :
    gm_calculate_similarity g a = 4 / 5 := by
  unfold gm_calculate_similarity
  rw [if_neg h₃, if_pos h₄, divInt_four_five]

/-- Witness for `C1_amended_theorem` at a concrete substring pair. -/
theorem C1_witness : gm_calculate_similarity "matrix" "matrix reloaded" = 4 / 5 :=
  C1_amended_theorem "matrix" "matrix reloaded" (by decide) (by decide) (by decide) (by decide)

/-! ### C5 — end_game statuses -/

/-- Manual end of the `testState` round at t=50. -/
def endManual := end_game testState 100 "manual" 50 true

/-- Timeout end of the `testState` round at t=60. -/
def endTimeout := end_game testState 100 "timeout" 60 true

/-- C5, counterexample.  `GameStatus` has no MANUALLY_ENDED (or WON) value;
`end_game` with reason "manual" sets COMPLETED — exactly the status
`_handle_correct_guess` gives a won round — so the manual-end status is not
distinct from the won status.  Timeout does get its own TIMEOUT status. -/
theorem C5_counterexample :
    (endManual.2.db.sessions "s1").map GameSession.status = some GameStatus.completed ∧
    (endTimeout.2.db.sessions "s1").map GameSession.status = some GameStatus.timeout ∧
    ((handle_correct_guess {} testState 100 testSession 2 10 true).2.db.sessions "s1").map
        GameSession.status = some GameStatus.completed := by
  exact ⟨by decide, by decide, by decide⟩

/-- C5, amended: `end_game` on a tracked round sets status TIMEOUT when
reason is "timeout" and COMPLETED for every other reason (there is no
MANUALLY_ENDED); TIMEOUT and COMPLETED are distinct, but COMPLETED is the
same status the win path assigns — manual end and win are not distinguished
by status. -/
theorem C5_amended_theorem (st : BotState) (chat : ℤ) (session : GameSession)
    (reason : String) (now : ℚ) (ok : Bool)
    (h : st.active_games chat = some session) :
    (end_game st chat "timeout" now ok).1
      = EndResult.ended { session with status := GameStatus.timeout, end_time := some now } ∧
    (reason ≠ "timeout" →
      (end_game st chat reason now ok).1
        = EndResult.ended { session with status := GameStatus.completed, end_time := some now }) ∧
    GameStatus.timeout ≠ GameStatus.completed := by
  refine ⟨?_, fun hr => ?_, by decide⟩
  · simp [end_game, h]
  · simp [end_game, h, hr]

/-- Witness for `C5_amended_theorem`: ending the `testState` round manually
yields a COMPLETED session. -/
theorem C5_witness :
    (end_game testState 100 "manual" 50 true).1
      = EndResult.ended
          { testSession with status := GameStatus.completed, end_time := some (50 : ℚ) } :=
  (C5_amended_theorem testState 100 testSession "manual" 50 true (by decide)).2.1 (by decide)

/-! ### C9 — close/miss thresholds -/

/-- An ACTIVE round in chat 400 whose answer is "red blue yellow". -/
def sessionC9 : GameSession :=
  { id := "s4", chat_id := 400, puzzle_id := "p4", answer := "red blue yellow",
    difficulty := .easy, status := .active, start_time := 0 }

/-- A state in which chat 400 is playing `sessionC9`. -/
def stateC9 : BotState :=
  { db := { users := fun k => if k = 9 then some {} else none
            sessions := fun k => if k = "s4" then some sessionC9 else none
            sessionGuesses := fun _ => []
            puzzles := fun _ => none }
    active_games := fun c => if c = 400 then some sessionC9 else none
    recent_puzzles := fun _ => []
    game_timers := fun c => c = 400 }

/-- C9, counterexample.  Guess "red blue green" against answer
"red blue yellow": the computed similarity is exactly 0.5 and the guess is
not a win, yet `process_guess` replies "miss", not "close" — the code tests
`similarity > 0.5` strictly, so similarity exactly 0.5 falls to the miss
branch, contradicting the claimed `0.5 ≤ s → close`. -/
theorem C9_counterexample :
    gm_calculate_similarity "red blue green" "red blue yellow" = 1 / 2 ∧
    is_close_match "red blue green" "red blue yellow" (Rat.divInt 4 5) = false ∧
    (process_guess {} stateC9 400 9 "red blue green" 5 true true).1 = GuessResult.miss := by
  have hval : gm_calculate_similarity "red blue green" "red blue yellow" = Rat.divInt 1 2 := by
    decide
  exact ⟨by rw [hval, divInt_one_two], by decide, by decide⟩

/-- C9, amended: for a non-winning guess against an active round with
computed similarity s, the reply is "close" (getting warmer) iff s > 0.5
strictly, and "miss" when s ≤ 0.5 — in particular s = 0.5 yields "miss". -/
theorem C9_amended_theorem (cfg : Config) (st : BotState) (chat userId : ℤ)
    (guess : String) (now : ℚ) (ok₁ ok₂ : Bool) (session : GameSession)
    (hA : st.active_games chat = some session)
    (hS : session.status = GameStatus.active)
    (hNW : is_close_match guess session.answer (Rat.divInt 4 5) = false) :
    ((1 / 2 : ℚ) < gm_calculate_similarity guess session.answer →
      (process_guess cfg st chat userId guess now ok₁ ok₂).1 = GuessResult.close) ∧
    (gm_calculate_similarity guess session.answer ≤ (1 / 2 : ℚ) →
      (process_guess cfg st chat userId guess now ok₁ ok₂).1 = GuessResult.miss) := by
  constructor
  · intro hgt
    rw [show (1 / 2 : ℚ) = 2⁻¹ by norm_num] at hgt
    simp only [process_guess, hA, hS]
    by_cases hmem : userId ∈ session.participants <;>
      simp [hmem, hNW, divInt_one_two, gt_iff_lt, hgt]
  · intro hle
    have hnl : ¬ ((2⁻¹ : ℚ) < gm_calculate_similarity guess session.answer) := by
      rw [show ((2 : ℚ))⁻¹ = 1 / 2 by norm_num]
      exact not_lt.mpr hle
    simp only [process_guess, hA, hS]
    by_cases hmem : userId ∈ session.participants <;>
      simp [hmem, hNW, divInt_one_two, gt_iff_lt, hnl]

/-- Witness for `C9_amended_theorem` at the exact-0.5 input. -/
theorem C9_witness :
    (process_guess {} stateC9 400 9 "red blue green" 6 true true).1 = GuessResult.miss :=
  (C9_amended_theorem {} stateC9 400 9 "red blue green" 6 true true sessionC9
    (by decide) (by decide) (by decide)).2
    (by rw [← divInt_one_two]; decide)

/-! ### Frame lemmas for the persistence layer -/

/-- `update_game_session` touches only the sessions collection. -/
lemma db_update_game_session_users (db : Database) (sid : String)
    (patch : GameSession → GameSession) (ok : Bool) :
    (db_update_game_session db sid patch ok).users = db.users := by
  unfold db_update_game_session; split <;> rfl

/-- `create_game_session` touches only the sessions collection. -/
lemma db_create_game_session_users (db : Database) (s : GameSession) (ok : Bool) :
    (db_create_game_session db s ok).users = db.users := by
  unfold db_create_game_session; split <;> rfl

/-- `add_game_guess` touches only the stored guess logs. -/
lemma db_add_game_guess_users (db : Database) (sid : String) (uid : ℤ)
    (guess : String) (ok : Bool) :
    (db_add_game_guess db sid uid guess ok).users = db.users := by
  unfold db_add_game_guess; split <;> rfl

/-- `mark_puzzle_solved` touches only the puzzles collection. -/
lemma db_mark_puzzle_solved_users (db : Database) (pid : String) :
    (db_mark_puzzle_solved db pid).users = db.users := rfl

/-- A `$inc` document with `hints_used = 0` never changes any user's
`hints_used`. -/
lemma db_update_user_stats_hints_used (db : Database) (uid : ℤ) (d : StatsInc)
    (u : ℤ) (h : d.hints_used = 0) :
    ((db_update_user_stats db uid d).users u).map User.hints_used
      = (db.users u).map User.hints_used := by
  unfold db_update_user_stats
  by_cases e : u = uid
  · subst e
    simp only [if_pos rfl]
    cases db.users u <;> simp [applyInc, h]
  · simp [e]

/-- The participant loop of `end_game` (games_played credits) never changes
any user's `hints_used`. -/
lemma foldl_games_played_hints_used (l : List ℤ) (db : Database) (u : ℤ) :
    (((l.foldl (fun db uid => db_update_user_stats db uid { games_played := 1 }) db).users u).map
        User.hints_used)
      = (db.users u).map User.hints_used := by
  induction l generalizing db with
  | nil => rfl
  | cons x xs ih =>
    simp only [List.foldl_cons]
    rw [ih, db_update_user_stats_hints_used _ _ _ _ rfl]

/-- The win path never changes any user's `hints_used` (the winner's `$inc`
has no `hints_used` key). -/
lemma handle_correct_guess_hints_used (cfg : Config) (st : BotState) (chat : ℤ)
    (session : GameSession) (uid : ℤ) (now : ℚ) (ok : Bool) (u : ℤ) :
    ((handle_correct_guess cfg st chat session uid now ok).2.db.users u).map User.hints_used
      = (st.db.users u).map User.hints_used := by
  simp only [handle_correct_guess, db_mark_puzzle_solved_users]
  rw [db_update_user_stats_hints_used _ _ _ _ rfl, db_update_game_session_users]

/-! ### C10 — hints never touch player records -/

/-- C10: `get_hint` leaves the entire users collection untouched (so no
score, games_played, games_won, correct_guesses or hints_used changes), and
no operation — start, guess processing (wins included), or ending a round —
ever changes any user's `hints_used`. -/
theorem C10_theorem :
    (∀ (cfg : Config) (st : BotState) (chat : ℤ) (ok : Bool),
      (get_hint cfg st chat ok).2.db.users = st.db.users) ∧
    (∀ (st : BotState) (chat : ℤ) (puzzle? : Option MoviePuzzle) (sid : String)
        (now : ℚ) (ok : Bool) (uid : ℤ),
      ((start_new_game st chat puzzle? sid now ok).2.db.users uid).map User.hints_used
        = (st.db.users uid).map User.hints_used) ∧
    (∀ (cfg : Config) (st : BotState) (chat userId : ℤ) (guess : String) (now : ℚ)
        (ok₁ ok₂ : Bool) (u : ℤ),
      ((process_guess cfg st chat userId guess now ok₁ ok₂).2.db.users u).map User.hints_used
        = (st.db.users u).map User.hints_used) ∧
    (∀ (st : BotState) (chat : ℤ) (reason : String) (now : ℚ) (ok : Bool) (u : ℤ),
      ((end_game st chat reason now ok).2.db.users u).map User.hints_used
        = (st.db.users u).map User.hints_used) := by
  refine ⟨?_, ?_, ?_, ?_⟩
  · intro cfg st chat ok
    simp only [get_hint]
    repeat' split
    all_goals rfl
  · intro st chat puzzle? sid now ok uid
    simp only [start_new_game]
    repeat' split
    all_goals simp [db_create_game_session_users]
  · intro cfg st chat userId guess now ok₁ ok₂ u
    simp only [process_guess]
    repeat' split
    all_goals first
      | rfl
      | (rw [handle_correct_guess_hints_used]; simp [db_add_game_guess_users])
      | simp [db_add_game_guess_users]
  · intro st chat reason now ok u
    simp only [end_game]
    repeat' split
    all_goals first
      | rfl
      | (rw [foldl_games_played_hints_used, db_update_game_session_users])

/-! ### C8 — one active round per chat -/

/-- The active-round index maps each chat to at most one ACTIVE round. -/
def at_most_one_active (st : BotState) : Prop :=
  ∀ (chat : ℤ) (s₁ s₂ : GameSession),
    st.active_games chat = some s₁ → s₁.status = GameStatus.active →
    st.active_games chat = some s₂ → s₂.status = GameStatus.active → s₁ = s₂

/-- The invariant holds of every state: the index is a single-valued map
(the Python `dict` keyed by chat id), so a chat can never hold two rounds. -/
lemma at_most_one_active_of_map (st : BotState) : at_most_one_active st := by
  intro chat s₁ s₂ h₁ _ h₂ _
  rw [h₁] at h₂
  exact Option.some.inj h₂

/-- C8: `start_new_game` returns the AlreadyActive failure — leaving the
state completely unchanged — whenever the chat already has an ACTIVE round,
and every operation preserves the invariant that the active-round index maps
each chat to at most one active round (the index being a chat-keyed map,
the invariant is enforced structurally). -/
theorem C8_theorem :
    (∀ (st : BotState) (chat : ℤ) (puzzle? : Option MoviePuzzle) (sid : String)
        (now : ℚ) (ok : Bool),
      is_game_active st chat = true →
      start_new_game st chat puzzle? sid now ok = (StartResult.alreadyActive, st)) ∧
    (∀ (st : BotState) (chat : ℤ) (puzzle? : Option MoviePuzzle) (sid : String)
        (now : ℚ) (ok : Bool),
      at_most_one_active (start_new_game st chat puzzle? sid now ok).2) ∧
    (∀ (cfg : Config) (st : BotState) (chat userId : ℤ) (guess : String) (now : ℚ)
        (ok₁ ok₂ : Bool),
      at_most_one_active (process_guess cfg st chat userId guess now ok₁ ok₂).2) ∧
    (∀ (cfg : Config) (st : BotState) (chat : ℤ) (ok : Bool),
      at_most_one_active (get_hint cfg st chat ok).2) ∧
    (∀ (st : BotState) (chat : ℤ) (reason : String) (now : ℚ) (ok : Bool),
      at_most_one_active (end_game st chat reason now ok).2) := by
  refine ⟨?_, ?_, ?_, ?_, ?_⟩
  · intro st chat puzzle? sid now ok h
    simp [start_new_game, h]
  · intro st chat puzzle? sid now ok
    exact at_most_one_active_of_map _
  · intro cfg st chat userId guess now ok₁ ok₂
    exact at_most_one_active_of_map _
  · intro cfg st chat ok
    exact at_most_one_active_of_map _
  · intro st chat reason now ok
    exact at_most_one_active_of_map _

/-- Witness for `C8_theorem`: chat 100 of `testState` has an active round,
so a second start is refused with the state unchanged. -/
theorem C8_witness :
    start_new_game testState 100 (some testPuzzle) "sY" 0 true
      = (StartResult.alreadyActive, testState) ∧
    at_most_one_active (end_game testState 100 "manual" 0 true).2 :=
  ⟨C8_theorem.1 testState 100 (some testPuzzle) "sY" 0 true (by decide),
   C8_theorem.2.2.2.2 testState 100 "manual" 0 true⟩
